import Mathlib

/-!
Shallow embedding of the QOJ submit bridge server (server.py) and proofs
about its connection registry, pending-request table and HTTP endpoints.

Modelling conventions:
- Python dicts over string keys become association lists with explicit
  get / remove / insert operations (`dictGet`, `dictRemove`, `dictInsert`).
- An `asyncio.Future` is modelled by its observable state `FutState`:
  unresolved, resolved with a payload, or cancelled.  `fut.done()` is true
  for the resolved and cancelled states.
- `asyncio.wait_for(fut, timeout)` cancels the awaited future when the
  timeout elapses and raises `TimeoutError`; awaiting an already cancelled
  future raises `CancelledError`, which `submission_result` does not catch.
  Both behaviours are reflected in the model of `submission_result`.
- WebSocket peers are opaque identities (`Peer := Nat`); whether a given
  peer's `send_json` raises is an explicit parameter `fails : Peer → Bool`.
-/

namespace QOJ

/-- Result payload carried by a report: external submission id, result URL,
submission time (server.py line 125). -/
structure Payload where
  sid : String
  surl : String
  stime : String
deriving DecidableEq

/-- Observable state of an `asyncio.Future` held in `pending_results`. -/
inductive FutState
  | unresolved
  | resolved (p : Payload)
  | cancelled
deriving DecidableEq

/-- Model of `fut.done()`: true once resolved or cancelled. -/
def FutState.done : FutState → Bool
  | FutState.unresolved => false
  | FutState.resolved _ => true
  | FutState.cancelled => true

/-- The `pending_results` dict: request id to future state. -/
abbrev Table := List (String × FutState)

/-- Dict lookup: `pending_results.get(k)`. -/
def dictGet (t : Table) (k : String) : Option FutState :=
  (t.find? (fun kv => kv.1 == k)).map (fun kv => kv.2)

/-- Dict key removal, as performed by `pending_results.pop(k, None)`. -/
def dictRemove (t : Table) (k : String) : Table :=
  t.filter (fun kv => kv.1 != k)

/-- Dict assignment `t[k] = v` (replaces any existing entry for `k`). -/
def dictInsert (t : Table) (k : String) (v : FutState) : Table :=
  dictRemove t k ++ [(k, v)]

/-- In-place update of the value stored at `k`, used to model a mutation of
the future object that the table still references (cancellation). -/
def dictSet (t : Table) (k : String) (v : FutState) : Table :=
  t.map (fun kv => if kv.1 == k then (k, v) else kv)

/-- Embedding of `register_pending` (server.py lines 72-75): creates a fresh
unresolved future and assigns it into the dict unconditionally — there is no
check whether `request_id` is already present, so an existing entry is
silently overwritten. -/
def register_pending (t : Table) (request_id : String) : Table :=
  dictInsert t request_id FutState.unresolved

/-- Embedding of `resolve_pending` (server.py lines 78-81): pops the entry
for `request_id` (no-op on the table when absent); when a future was popped
and it is not yet done, sets the payload as its result.  Returns the updated
table together with the popped future's state after the call (`none` when no
entry existed) — the latter is what a concurrent awaiter of that future
observes. -/
def resolve_pending (t : Table) (request_id : String) (payload : Payload) :
    Table × Option FutState :=
  match dictGet t request_id with
  | none => (t, none)
  | some fs =>
      (dictRemove t request_id,
       some (if fs.done then fs else FutState.resolved payload))

/-- A connected duplex peer, identified opaquely. -/
abbrev Peer := Nat

/-- Embedding of `ConnectionManager` (server.py lines 39-61): the set of
active peers, modelled as a duplicate-free list. -/
structure ConnectionManager where
  active : List Peer
deriving DecidableEq

/-- Embedding of `ConnectionManager.connect`: `self.active.add(websocket)`. -/
def ConnectionManager.connect (m : ConnectionManager) (p : Peer) :
    ConnectionManager :=
  if m.active.contains p then m else ConnectionManager.mk (m.active ++ [p])

/-- Embedding of `ConnectionManager.disconnect`:
`self.active.discard(websocket)` — a no-op when the peer is absent. -/
def ConnectionManager.disconnect (m : ConnectionManager) (p : Peer) :
    ConnectionManager :=
  ConnectionManager.mk (m.active.filter (fun q => q != p))

/-- Per-peer `await ws.send_json(message)`: raises exactly when the peer's
channel is failing. -/
def trySend (fails : Peer → Bool) (p : Peer) : Except String Unit :=
  if fails p then Except.error "channel closed" else Except.ok ()

/-- The `for ws in list(self.active)` loop of `broadcast` (server.py lines
55-59): each send is attempted inside try/except, a raising peer is caught
and appended to `dead`, a successful one received the message.  Returns the
peers that received the message and the dead peers; the loop itself never
propagates an exception, which is why its result type is a plain pair. -/
def broadcastLoop (fails : Peer → Bool) : List Peer → List Peer × List Peer
  | [] => ([], [])
  | p :: rest =>
      let r := broadcastLoop fails rest
      match trySend fails p with
      | Except.ok _ => (p :: r.1, r.2)
      | Except.error _ => (r.1, p :: r.2)

/-- Outcome of one broadcast: the registry after dead-peer eviction, the
snapshot of peers the send was attempted against, the peers that received
the message, and the dead peers. -/
structure BroadcastResult where
  manager : ConnectionManager
  attempted : List Peer
  delivered : List Peer
  dead : List Peer
deriving DecidableEq

/-- Embedding of `ConnectionManager.broadcast` (server.py lines 53-61):
iterates a snapshot `list(self.active)`, catches every per-peer send
failure, then disconnects each dead peer. -/
def ConnectionManager.broadcast (m : ConnectionManager)
    (fails : Peer → Bool) : BroadcastResult :=
  let snapshot := m.active
  let r := broadcastLoop fails snapshot
  BroadcastResult.mk (r.2.foldl ConnectionManager.disconnect m) snapshot r.1 r.2

/-- Hex digit character for a value below 16, lowercase as produced by
Python's `%x` formatting. -/
def hexDigit (n : Nat) : Char :=
  if n < 10 then Char.ofNat (48 + n) else Char.ofNat (87 + n)

/-- Big-endian, zero-padded hex rendering of `n` to exactly `w` digits,
as `'%0*x' % (w, n)` produces for `n < 16 ^ w`. -/
def toHexChars : Nat → Nat → List Char
  | 0, _ => []
  | w + 1, n => toHexChars w (n / 16) ++ [hexDigit (n % 16)]

/-- The 128-bit integer of `uuid.uuid4()` built from the random value `r`:
CPython forces the RFC 4122 variant bits and the version nibble to 4. -/
def uuid4_int (r : Nat) : Nat :=
  let x := r % 2 ^ 128
  let x := (x &&& (2 ^ 128 - 1 - (0xc000 <<< 48))) ||| (0x8000 <<< 48)
  let x := (x &&& (2 ^ 128 - 1 - (0xf000 <<< 64))) ||| (4 <<< 76)
  x

/-- Embedding of `create_request_id` (server.py lines 68-69):
`uuid.uuid4().hex`, the 32-digit lowercase hex form of the 128-bit UUID
value, parameterised by the 128 random bits `r`. -/
def create_request_id (r : Nat) : String :=
  String.mk (toHexChars 32 (uuid4_int r))

/-- Vocabulary for stating properties of request ids: membership in the
lowercase hexadecimal alphabet that `%x` formatting emits. -/
def isHexChar (c : Char) : Bool :=
  "0123456789abcdef".toList.contains c

/-- The JSON body returned by the submit endpoint (server.py line 115). -/
structure SubmitResponse where
  status : String
  sent_to_clients : Nat
  request_id : String
deriving DecidableEq

/-- The payload broadcast to peers by `submit_code` (server.py lines
106-112). -/
structure Submission where
  problemCode : String
  language : String
  code : String
  timestamp : String
  requestId : String
deriving DecidableEq

/-- Everything observable about one run of the submit endpoint. -/
structure SubmitResult where
  response : SubmitResponse
  manager : ConnectionManager
  table : Table
  payload : Submission
  attempted : List Peer
  delivered : List Peer
  dead : List Peer
deriving DecidableEq

/-- Embedding of `submit_code` (server.py lines 95-115).  The `language`
form field is optional with default `"C++26"`; the request id, the decoded
file contents and the UTC timestamp enter as parameters (they come from
randomness, the upload and the clock).  The handler registers the pending
entry, broadcasts the payload, and answers with
`\x7b"status": "queued", "sent_to_clients": len(manager.active),
"request_id": request_id\x7d`, where `len(manager.active)` is read after
`broadcast` has evicted the dead peers. -/
def submit_code (m : ConnectionManager) (t : Table) (problem_code : String)
    (language : Option String) (fileCode : String) (timestamp : String)
    (request_id : String) (fails : Peer → Bool) : SubmitResult :=
  let lang := language.getD "C++26"
  let payload := Submission.mk problem_code lang fileCode timestamp request_id
  let t1 := register_pending t request_id
  let b := ConnectionManager.broadcast m fails
  SubmitResult.mk
    (SubmitResponse.mk "queued" b.manager.active.length request_id)
    b.manager t1 payload b.attempted b.delivered b.dead

/-- The JSON body returned by the report endpoint: always `"ok"`. -/
structure ReportResponse where
  status : String
deriving DecidableEq

/-- Observable outcome of one call to the report endpoint. -/
structure ReportResult where
  table : Table
  popped : Option FutState
  response : ReportResponse
deriving DecidableEq

/-- Embedding of `submission_report` (server.py lines 118-127): builds the
payload from the form fields, calls `resolve_pending`, and returns
`\x7b"status": "ok"\x7d` unconditionally. -/
def submission_report (t : Table) (request_id sid surl stime : String) :
    ReportResult :=
  let r := resolve_pending t request_id (Payload.mk sid surl stime)
  ReportResult.mk r.1 r.2 (ReportResponse.mk "ok")

/-- Outcome of one call to the result endpoint.  `raised` marks the case
where an exception other than `asyncio.TimeoutError` escapes the handler
(awaiting a cancelled future raises `CancelledError`, which the handler's
`except asyncio.TimeoutError` clause does not catch). -/
inductive QueryOutcome
  | done (p : Payload)
  | pending
  | unknown
  | raised
deriving DecidableEq

/-- True exactly for the three JSON outcomes the endpoint is documented to
return; false for an escaping exception. -/
def QueryOutcome.isApiOutcome : QueryOutcome → Bool
  | QueryOutcome.raised => false
  | _ => true

/-- Embedding of `submission_result` (server.py lines 130-139), together
with the semantics of `asyncio.wait_for`.  `arrival` is the oracle for what
happens during the bounded wait on an unresolved future: `some p` means a
report for this id arrives within the timeout, in which case the concurrent
`resolve_pending` pops the entry and sets `p`, and `wait_for` returns it;
`none` means the timeout elapses, in which case `wait_for` cancels the
future (the entry stays in the dict, now cancelled) and the handler answers
`pending`.  A missing entry answers `unknown` without waiting; awaiting an
already-resolved future returns its payload immediately; awaiting an
already-cancelled future raises `CancelledError`, which is not caught.
Returns the outcome and the table after the call. -/
def submission_result (t : Table) (request_id : String)
    (arrival : Option Payload) : QueryOutcome × Table :=
  match dictGet t request_id with
  | none => (QueryOutcome.unknown, t)
  | some (FutState.resolved p) => (QueryOutcome.done p, t)
  | some FutState.cancelled => (QueryOutcome.raised, t)
  | some FutState.unresolved =>
      match arrival with
      | some p => (QueryOutcome.done p, dictRemove t request_id)
      | none =>
          (QueryOutcome.pending, dictSet t request_id FutState.cancelled)

/-- Embedding of `RESULT_NAME_MAP` (server.py lines 8-16). -/
def RESULT_NAME_MAP : List (String × String) :=
  [("AC ✓", "correct"), ("TL", "timelimit"), ("RE", "run-error"),
   ("WA", "wrong-answer"), ("Compile Error", "compiler-error"),
   ("ML", "memorylimit"), ("OL", "outputlimit")]

/-- Dict lookup in `RESULT_NAME_MAP`. -/
def mapGet (k : String) : Option String :=
  (RESULT_NAME_MAP.find? (fun kv => kv.1 == k)).map (fun kv => kv.2)

/-- The JSON body returned by the score endpoint: always `"ok"`. -/
structure ScoreResponse where
  status : String
deriving DecidableEq

/-- Observable outcome of one call to the score endpoint: the display label
after the lookup, the message printed to the log, the swallowed error of the
desktop-notify call when it raised, and the HTTP response. -/
structure ScoreResult where
  label : String
  printedMsg : String
  swallowedError : Option String
  response : ScoreResponse
deriving DecidableEq

/-- Embedding of `submission_score` (server.py lines 148-164): the status
code is mapped through `RESULT_NAME_MAP` when present as a key and passes
through unchanged otherwise; the notify call runs only when the plyer
library imported (`plyerAvailable`), and any exception it raises
(`notifyError = some msg`) is caught and logged, never propagated; the
endpoint answers `\x7b"status": "ok"\x7d` in every case. -/
def submission_score (sid status : String) (plyerAvailable : Bool)
    (notifyError : Option String) : ScoreResult :=
  let label := match mapGet status with
    | some v => v
    | none => status
  let msg := "Submission " ++ sid ++ " received a new result: " ++ label
  let swallowed := if plyerAvailable then notifyError else none
  ScoreResult.mk label msg swallowed (ScoreResponse.mk "ok")

/-- Concrete two-peer submit scenario: peers 0 and 1 connected, peer 0's
channel closed so its send raises mid-broadcast. -/
def twoPeerSubmit : SubmitResult :=
  submit_code (ConnectionManager.mk [0, 1]) [] "A" (some "cpp")
    "int main()\x7b\x7d" "2024-01-01T00:00:00Z"
    "aaaabbbbccccddddaaaabbbbccccdddd" (fun p => p == 0)

/-! Helper lemmas about the dictionary operations. -/

theorem dictGet_dictRemove_self (t : Table) (k : String) :
    dictGet (dictRemove t k) k = none := by
  have h : (dictRemove t k).find? (fun kv => kv.1 == k) = none := by
    rw [List.find?_eq_none]
    intro kv hkv
    have := (List.mem_filter.mp hkv).2
    simp only [bne_iff_ne, ne_eq] at this
    simp [this]
  simp [dictGet, h]

theorem dictGet_dictRemove_ne (t : Table) (k k' : String) (h : k' ≠ k) :
    dictGet (dictRemove t k) k' = dictGet t k' := by
  induction t with
  | nil => rfl
  | cons kv rest ih =>
      by_cases h1 : kv.1 = k
      · have h2 : (k == k') = false := by simp [Ne.symm h]
        simp only [dictRemove, List.filter_cons, h1, bne_self_eq_false,
          dictGet, List.find?_cons, h2] at ih ⊢
        simpa [dictRemove, dictGet] using ih
      · by_cases h2 : kv.1 = k'
        · simp [dictRemove, List.filter_cons, bne, h1, dictGet,
            List.find?_cons, h2, h]
        · have hb1 : (kv.1 != k) = true := by simp [bne, h1]
          have hb2 : (kv.1 == k') = false := by simp [h2]
          simp only [dictRemove, List.filter_cons, hb1, if_true, dictGet,
            List.find?_cons, hb2] at ih ⊢
          simpa [dictRemove, dictGet] using ih

theorem dictGet_dictInsert_self (t : Table) (k : String) (v : FutState) :
    dictGet (dictInsert t k v) k = some v := by
  have h : (dictRemove t k).find? (fun kv => kv.1 == k) = none := by
    rw [List.find?_eq_none]
    intro kv hkv
    have := (List.mem_filter.mp hkv).2
    simp only [bne_iff_ne, ne_eq] at this
    simp [this]
  simp [dictGet, dictInsert, List.find?_append, h]

theorem dictGet_dictInsert_ne (t : Table) (k k' : String) (v : FutState)
    (h : k' ≠ k) : dictGet (dictInsert t k v) k' = dictGet t k' := by
  have hne : (k == k') = false := by
    simp [Ne.symm h]
  have hrem := dictGet_dictRemove_ne t k k' h
  unfold dictGet at hrem ⊢
  unfold dictInsert
  rw [List.find?_append]
  cases hfind : (dictRemove t k).find? (fun kv => kv.1 == k') with
  | some kv =>
      rw [hfind] at hrem
      simp [Option.or, ← hrem]
  | none =>
      rw [hfind] at hrem
      simp [Option.or, hne, ← hrem]

theorem dictRemove_eq_self_of_get_none (t : Table) (k : String)
    (h : dictGet t k = none) : dictRemove t k = t := by
  unfold dictGet at h
  have hfind : t.find? (fun kv => kv.1 == k) = none := by
    cases hf : t.find? (fun kv => kv.1 == k) with
    | none => rfl
    | some kv => rw [hf] at h; simp at h
  rw [List.find?_eq_none] at hfind
  unfold dictRemove
  rw [List.filter_eq_self]
  intro kv hkv
  have := hfind kv hkv
  simpa [bne] using this

/-! Helper lemmas about broadcast. -/

theorem broadcastLoop_fst (fails : Peer → Bool) (l : List Peer) :
    (broadcastLoop fails l).1 = l.filter (fun p => !fails p) := by
  induction l with
  | nil => rfl
  | cons p rest ih =>
      by_cases h : fails p = true
      · simp [broadcastLoop, trySend, h, List.filter_cons, ih]
      · simp [broadcastLoop, trySend, h, List.filter_cons, ih]

theorem broadcastLoop_snd (fails : Peer → Bool) (l : List Peer) :
    (broadcastLoop fails l).2 = l.filter fails := by
  induction l with
  | nil => rfl
  | cons p rest ih =>
      by_cases h : fails p = true
      · simp [broadcastLoop, trySend, h, List.filter_cons, ih]
      · simp [broadcastLoop, trySend, h, List.filter_cons, ih]

theorem foldl_disconnect_active (dead : List Peer) (m : ConnectionManager) :
    (dead.foldl ConnectionManager.disconnect m).active
      = m.active.filter (fun q => !dead.contains q) := by
  induction dead generalizing m with
  | nil => simp
  | cons p rest ih =>
      rw [List.foldl_cons, ih]
      show (m.active.filter (fun q => q != p)).filter
          (fun q => !rest.contains q) = _
      rw [List.filter_filter]
      apply List.filter_congr
      intro q _
      by_cases hq : q = p <;> simp [hq, bne, List.contains_cons]

theorem broadcast_manager_active (m : ConnectionManager)
    (fails : Peer → Bool) :
    (m.broadcast fails).manager.active
      = m.active.filter (fun p => !fails p) := by
  show ((broadcastLoop fails m.active).2.foldl
      ConnectionManager.disconnect m).active = _
  rw [broadcastLoop_snd, foldl_disconnect_active]
  apply List.filter_congr
  intro q hq
  by_cases h : fails q = true
  · simp [h, List.mem_filter, hq]
  · have : q ∉ m.active.filter fails := by
      intro hmem
      exact h (List.mem_filter.mp hmem).2
    simp [h, this]

/-! Helper lemmas about the hex rendering of request ids. -/

theorem toHexChars_length (w n : Nat) : (toHexChars w n).length = w := by
  induction w generalizing n with
  | zero => rfl
  | succ w ih => simp [toHexChars, ih]

theorem hexDigit_isHex : ∀ d, d < 16 → isHexChar (hexDigit d) = true := by
  decide

theorem toHexChars_isHex (w n : Nat) :
    ∀ c ∈ toHexChars w n, isHexChar c = true := by
  induction w generalizing n with
  | zero => intro c hc; cases hc
  | succ w ih =>
      intro c hc
      rcases List.mem_append.mp hc with h | h
      · exact ih (n / 16) c h
      · have : c = hexDigit (n % 16) := by simpa using h
        exact this ▸ hexDigit_isHex (n % 16) (Nat.mod_lt n (by simp))

theorem create_request_id_length (r : Nat) :
    (create_request_id r).length = 32 := by
  show (String.mk (toHexChars 32 (uuid4_int r))).length = 32
  simp [String.length, toHexChars_length]

theorem length_filter_partition (p : Peer → Bool) (l : List Peer) :
    (l.filter (fun a => !p a)).length + (l.filter p).length = l.length := by
  induction l with
  | nil => rfl
  | cons a rest ih =>
      cases h : p a
      · have h1 : (a :: rest).filter (fun x => !p x)
            = a :: rest.filter (fun x => !p x) := by
          simp [List.filter_cons, h]
        have h2 : (a :: rest).filter p = rest.filter p := by
          simp [List.filter_cons, h]
        rw [h1, h2, List.length_cons, List.length_cons]
        omega
      · have h1 : (a :: rest).filter (fun x => !p x)
            = rest.filter (fun x => !p x) := by
          simp [List.filter_cons, h]
        have h2 : (a :: rest).filter p = a :: rest.filter p := by
          simp [List.filter_cons, h]
        rw [h1, h2, List.length_cons, List.length_cons]
        omega

/-! Claim theorems. -/

/-- C4: for every request id, at most one resolution ever succeeds: after a
first `resolve_pending` for an id, a second call for the same id leaves the
table exactly as the first left it, touches no future (`none` popped), and
changes no result query's outcome; the first call is the one that applies
its payload when the entry was unresolved. -/
theorem c4_resolve_applies_only_first (t : Table) (rid : String)
    (p1 p2 : Payload) :
    (resolve_pending (resolve_pending t rid p1).1 rid p2).1
        = (resolve_pending t rid p1).1
    ∧ (resolve_pending (resolve_pending t rid p1).1 rid p2).2 = none
    ∧ (dictGet t rid = some FutState.unresolved →
        (resolve_pending t rid p1).2 = some (FutState.resolved p1))
    ∧ ∀ (rid2 : String) (arrival : Option Payload),
        submission_result (resolve_pending (resolve_pending t rid p1).1 rid p2).1
            rid2 arrival
          = submission_result (resolve_pending t rid p1).1 rid2 arrival := by
  have hnone : dictGet (resolve_pending t rid p1).1 rid = none := by
    cases h : dictGet t rid with
    | none => simp [resolve_pending, h]
    | some fs =>
        show dictGet (resolve_pending t rid p1).1 rid = none
        simp only [resolve_pending, h]
        exact dictGet_dictRemove_self t rid
  have hsecond : resolve_pending (resolve_pending t rid p1).1 rid p2
      = ((resolve_pending t rid p1).1, none) := by
    generalize hX : (resolve_pending t rid p1).1 = t1 at hnone ⊢
    simp [resolve_pending, hnone]
  refine ⟨by rw [hsecond], by rw [hsecond], ?_, ?_⟩
  · intro h
    simp [resolve_pending, h, FutState.done]
  · intro rid2 arrival
    rw [hsecond]

/-- Witness for C4 at a concrete table: the entry for "a" is unresolved, the
first resolve applies its payload, and the second resolve pops nothing. -/
theorem c4_witness :
    (resolve_pending [("a", FutState.unresolved)] "a"
        (Payload.mk "1" "/submission/1" "2024-01-01T00:00:00Z")).2
      = some (FutState.resolved
          (Payload.mk "1" "/submission/1" "2024-01-01T00:00:00Z"))
    ∧ (resolve_pending
        (resolve_pending [("a", FutState.unresolved)] "a"
          (Payload.mk "1" "/submission/1" "2024-01-01T00:00:00Z")).1 "a"
        (Payload.mk "2" "/submission/2" "2024-01-02T00:00:00Z")).2 = none :=
  ⟨(c4_resolve_applies_only_first [("a", FutState.unresolved)] "a"
      (Payload.mk "1" "/submission/1" "2024-01-01T00:00:00Z")
      (Payload.mk "2" "/submission/2" "2024-01-02T00:00:00Z")).2.2.1
      (by decide),
   (c4_resolve_applies_only_first [("a", FutState.unresolved)] "a"
      (Payload.mk "1" "/submission/1" "2024-01-01T00:00:00Z")
      (Payload.mk "2" "/submission/2" "2024-01-02T00:00:00Z")).2.1⟩

/-- C5: resolving an id with no entry in the pending table is a silent
no-op — the table is unchanged, no future is touched, nothing is raised
(the function is total) — and the report endpoint answers `ok`
unconditionally, whatever its inputs. -/
theorem c5_resolve_unknown_noop (t : Table) (rid : String) (p : Payload)
    (h : dictGet t rid = none) :
    resolve_pending t rid p = (t, none)
    ∧ ∀ (t2 : Table) (rid2 sid surl stime : String),
        (submission_report t2 rid2 sid surl stime).response
          = ReportResponse.mk "ok" := by
  refine ⟨by simp [resolve_pending, h], ?_⟩
  intro t2 rid2 sid surl stime
  rfl

/-- Witness for C5: resolving the unknown id "a" in a table holding only
"b" leaves the table as it was, and the report endpoint answers `ok` for an
id that never existed. -/
theorem c5_witness :
    dictGet [("b", FutState.unresolved)] "a" = none
    ∧ resolve_pending [("b", FutState.unresolved)] "a"
        (Payload.mk "1" "/submission/1" "2024-01-01T00:00:00Z")
      = ([("b", FutState.unresolved)], none)
    ∧ (submission_report [("b", FutState.unresolved)] "zzz" "1"
        "/submission/1" "2024-01-01T00:00:00Z").response
      = ReportResponse.mk "ok" :=
  ⟨by decide,
   (c5_resolve_unknown_noop [("b", FutState.unresolved)] "a"
      (Payload.mk "1" "/submission/1" "2024-01-01T00:00:00Z") (by decide)).1,
   (c5_resolve_unknown_noop [("b", FutState.unresolved)] "a"
      (Payload.mk "1" "/submission/1" "2024-01-01T00:00:00Z") (by decide)).2
     [("b", FutState.unresolved)] "zzz" "1" "/submission/1"
     "2024-01-01T00:00:00Z"⟩

/-- C10: when the language form field is omitted, the broadcast payload's
language is exactly "C++26" (the `Form("C++26")` default of `submit_code`). -/
theorem c10_language_default (m : ConnectionManager) (t : Table)
    (pc fileCode timestamp rid : String) (fails : Peer → Bool) :
    (submit_code m t pc none fileCode timestamp rid fails).payload.language
      = "C++26" := rfl

/-- C2 counterexample: registering an id that is already present does not
fail — `register_pending` has no collision guard, so the second call
succeeds and silently replaces the existing entry (here an entry in the
cancelled state becomes a fresh unresolved one), observably changing the
table where a rejection would have left it alone. -/
theorem c2_counterexample :
    register_pending [("a", FutState.cancelled)] "a"
      = [("a", FutState.unresolved)]
    ∧ register_pending [("a", FutState.cancelled)] "a"
      ≠ [("a", FutState.cancelled)] := by
  exact ⟨by decide, by decide⟩

/-- C2 amended: a second register of an already-present id does not fail; it
silently replaces the entry with a fresh unresolved future (orphaning the
old one), and registering an id never touches the entry of any distinct
id. -/
theorem c2_register_overwrites (t : Table) (rid other : String) :
    dictGet (register_pending t rid) rid = some FutState.unresolved
    ∧ (other ≠ rid →
        dictGet (register_pending t rid) other = dictGet t other) := by
  exact ⟨dictGet_dictInsert_self t rid FutState.unresolved,
    fun h => dictGet_dictInsert_ne t rid other FutState.unresolved h⟩

/-- Witness for C2's amended claim: a duplicate register of "a" over a
cancelled entry yields an unresolved entry, and the distinct id "b" is
unaffected. -/
theorem c2_witness :
    dictGet (register_pending [("a", FutState.cancelled)] "a") "a"
      = some FutState.unresolved
    ∧ dictGet (register_pending [("a", FutState.cancelled)] "a") "b"
      = dictGet [("a", FutState.cancelled)] "b" :=
  ⟨(c2_register_overwrites [("a", FutState.cancelled)] "a" "b").1,
   (c2_register_overwrites [("a", FutState.cancelled)] "a" "b").2
     (by decide)⟩

/-- C3: evaluation of the code at the failing input.  Register "r"; a result
query times out (`wait_for` cancels the future, which stays in the table);
a later resolve pops the entry but, the future being done (cancelled), drops
the payload instead of applying it; a subsequent result query — even one
whose wait a report would reach — answers `unknown`, not `done` with the
payload the claim requires. -/
theorem c3_timeout_kills_resolution :
    (submission_result (register_pending [] "r") "r" none).1
      = QueryOutcome.pending
    ∧ (submission_result (register_pending [] "r") "r" none).2
      = [("r", FutState.cancelled)]
    ∧ (resolve_pending [("r", FutState.cancelled)] "r"
        (Payload.mk "123" "/submission/123" "2024-01-01T00:00:00Z")).2
      = some FutState.cancelled
    ∧ (resolve_pending [("r", FutState.cancelled)] "r"
        (Payload.mk "123" "/submission/123" "2024-01-01T00:00:00Z")).1 = []
    ∧ (submission_result [] "r"
        (some (Payload.mk "123" "/submission/123" "2024-01-01T00:00:00Z"))).1
      = QueryOutcome.unknown
    ∧ QueryOutcome.unknown
      ≠ QueryOutcome.done
          (Payload.mk "123" "/submission/123" "2024-01-01T00:00:00Z") := by
  exact ⟨by decide, by decide, by decide, by decide, by decide, by decide⟩

/-- C7 counterexample: after one result query for "r" has timed out, a
second query for the same id raises `CancelledError` (awaiting the
already-cancelled future), which the handler does not catch — an outcome
outside the documented three, so the claim's universal three-outcome
contract fails at this input. -/
theorem c7_counterexample :
    (submission_result
        (submission_result (register_pending [] "r") "r" none).2 "r" none).1
      = QueryOutcome.raised
    ∧ QueryOutcome.raised.isApiOutcome = false := by
  exact ⟨by decide, by decide⟩

/-- C7 amended: whenever the entry's future has not been cancelled by an
earlier timed-out query, the result query returns exactly one of the three
documented outcomes, and `pending` and `unknown` are never conflated: the
outcome is `unknown` precisely when no entry exists, an unresolved entry
yields `pending` when the timeout elapses and `done` with the payload when
a report arrives within the wait. -/
theorem c7_three_outcomes (t : Table) (rid : String)
    (arrival : Option Payload)
    (h : dictGet t rid ≠ some FutState.cancelled) :
    (submission_result t rid arrival).1.isApiOutcome = true
    ∧ ((submission_result t rid arrival).1 = QueryOutcome.unknown
        ↔ dictGet t rid = none)
    ∧ (dictGet t rid = some FutState.unresolved →
        (arrival = none →
          (submission_result t rid arrival).1 = QueryOutcome.pending)
        ∧ ∀ p, arrival = some p →
          (submission_result t rid arrival).1 = QueryOutcome.done p) := by
  cases hg : dictGet t rid with
  | none =>
      simp [submission_result, hg, QueryOutcome.isApiOutcome]
  | some fs =>
      cases fs with
      | unresolved =>
          cases arrival with
          | none =>
              simp [submission_result, hg, QueryOutcome.isApiOutcome]
          | some p =>
              simp [submission_result, hg, QueryOutcome.isApiOutcome]
      | resolved p =>
          simp [submission_result, hg, QueryOutcome.isApiOutcome]
      | cancelled => exact absurd hg h

/-- Witness for C7's amended claim: a query on the unresolved entry "r"
whose wait elapses answers `pending`, an in-contract outcome. -/
theorem c7_witness :
    (submission_result [("r", FutState.unresolved)] "r" none).1
      = QueryOutcome.pending
    ∧ (submission_result [("r", FutState.unresolved)] "r"
        none).1.isApiOutcome = true :=
  ⟨((c7_three_outcomes [("r", FutState.unresolved)] "r" none
      (by decide)).2.2 (by decide)).1 rfl,
   (c7_three_outcomes [("r", FutState.unresolved)] "r" none (by decide)).1⟩

/-- C1 counterexample: two peers connected, peer 0's send fails during the
broadcast.  The failing peer is evicted and the other peer receives the
message, but `sent_to_clients` is `len(manager.active)` read after the
eviction — 1, not the pre-broadcast attempted count 2 the claim states. -/
theorem c1_counterexample :
    twoPeerSubmit.attempted.length = 2
    ∧ twoPeerSubmit.response.sent_to_clients = 1
    ∧ twoPeerSubmit.response.sent_to_clients ≠ twoPeerSubmit.attempted.length
    ∧ (0 : Peer) ∉ twoPeerSubmit.manager.active
    ∧ (1 : Peer) ∈ twoPeerSubmit.delivered := by
  exact ⟨by decide, by decide, by decide, by decide, by decide⟩

/-- C1 amended: for every submission during which at least one peer's send
fails mid-broadcast, the failing peers are removed from the registry, every
non-failing peer of the broadcast snapshot still receives the message, and
`sent_to_clients` equals the post-eviction registry size — the number of
peers that successfully received the message — not the pre-broadcast
attempted count. -/
theorem c1_sent_to_clients_post_eviction (m : ConnectionManager) (t : Table)
    (pc : String) (lang : Option String) (fileCode timestamp rid : String)
    (fails : Peer → Bool) (_hfail : ∃ p ∈ m.active, fails p = true) :
    (∀ p ∈ m.active, fails p = true →
        p ∉ (submit_code m t pc lang fileCode timestamp rid
              fails).manager.active)
    ∧ (∀ p ∈ (submit_code m t pc lang fileCode timestamp rid
          fails).attempted,
        fails p = false →
        p ∈ (submit_code m t pc lang fileCode timestamp rid fails).delivered)
    ∧ (submit_code m t pc lang fileCode timestamp rid
          fails).response.sent_to_clients
      = (submit_code m t pc lang fileCode timestamp rid
          fails).delivered.length := by
  have hman : (submit_code m t pc lang fileCode timestamp rid
      fails).manager.active = m.active.filter (fun p => !fails p) :=
    broadcast_manager_active m fails
  have hdel : (submit_code m t pc lang fileCode timestamp rid
      fails).delivered = m.active.filter (fun p => !fails p) :=
    broadcastLoop_fst fails m.active
  refine ⟨?_, ?_, ?_⟩
  · intro p hp hf
    rw [hman]
    intro hmem
    have := (List.mem_filter.mp hmem).2
    simp [hf] at this
  · intro p hp hf
    rw [hdel]
    exact List.mem_filter.mpr ⟨hp, by simp [hf]⟩
  · show (submit_code m t pc lang fileCode timestamp rid
        fails).manager.active.length = _
    rw [hman, hdel]

/-- Witness for C1's amended claim on the concrete two-peer scenario: the
response count equals the delivered count and the failing peer 0 is gone
from the registry. -/
theorem c1_witness :
    twoPeerSubmit.response.sent_to_clients = twoPeerSubmit.delivered.length
    ∧ (0 : Peer) ∉ twoPeerSubmit.manager.active :=
  ⟨(c1_sent_to_clients_post_eviction (ConnectionManager.mk [0, 1]) [] "A"
      (some "cpp") "int main()\x7b\x7d" "2024-01-01T00:00:00Z"
      "aaaabbbbccccddddaaaabbbbccccdddd" (fun p => p == 0)
      ⟨0, by decide, by decide⟩).2.2,
   (c1_sent_to_clients_post_eviction (ConnectionManager.mk [0, 1]) [] "A"
      (some "cpp") "int main()\x7b\x7d" "2024-01-01T00:00:00Z"
      "aaaabbbbccccddddaaaabbbbccccdddd" (fun p => p == 0)
      ⟨0, by decide, by decide⟩).1 0 (by decide) (by decide)⟩

/-- C6: broadcast never propagates a per-peer send failure: the snapshot it
iterates is the whole registry at broadcast start, every snapshot peer has
its delivery attempted and lands in exactly one of delivered or dead (their
sizes sum to the snapshot size), non-failing peers always receive the
message even when others fail, and every failing peer is removed from the
registry as a side effect. -/
theorem c6_broadcast_never_aborts (m : ConnectionManager)
    (fails : Peer → Bool) :
    (m.broadcast fails).attempted = m.active
    ∧ (∀ p ∈ (m.broadcast fails).attempted,
        (fails p = false → p ∈ (m.broadcast fails).delivered)
        ∧ (fails p = true → p ∈ (m.broadcast fails).dead))
    ∧ (∀ p, fails p = true → p ∉ (m.broadcast fails).manager.active)
    ∧ (m.broadcast fails).delivered.length + (m.broadcast fails).dead.length
      = (m.broadcast fails).attempted.length := by
  have hdel : (m.broadcast fails).delivered
      = m.active.filter (fun p => !fails p) := broadcastLoop_fst fails m.active
  have hdead : (m.broadcast fails).dead = m.active.filter fails :=
    broadcastLoop_snd fails m.active
  have hman := broadcast_manager_active m fails
  refine ⟨rfl, ?_, ?_, ?_⟩
  · intro p hp
    constructor
    · intro hf
      rw [hdel]
      exact List.mem_filter.mpr ⟨hp, by simp [hf]⟩
    · intro hf
      rw [hdead]
      exact List.mem_filter.mpr ⟨hp, hf⟩
  · intro p hf
    rw [hman]
    intro hmem
    have := (List.mem_filter.mp hmem).2
    simp [hf] at this
  · rw [hdel, hdead]
    exact length_filter_partition fails m.active

/-- Witness for C6 on a one-peer registry whose peer does not fail: the
snapshot is the registry, the peer receives the message, and a failing
identity is absent from the registry afterwards. -/
theorem c6_witness :
    ((ConnectionManager.mk [7]).broadcast (fun q => q == 9)).attempted = [7]
    ∧ (7 : Peer)
        ∈ ((ConnectionManager.mk [7]).broadcast (fun q => q == 9)).delivered
    ∧ (9 : Peer)
        ∉ ((ConnectionManager.mk [7]).broadcast
            (fun q => q == 9)).manager.active :=
  ⟨(c6_broadcast_never_aborts (ConnectionManager.mk [7]) (fun q => q == 9)).1,
   ((c6_broadcast_never_aborts (ConnectionManager.mk [7])
      (fun q => q == 9)).2.1 7 (by decide)).1 (by decide),
   (c6_broadcast_never_aborts (ConnectionManager.mk [7])
      (fun q => q == 9)).2.2.1 9 (by decide)⟩

/-- C8 counterexample: `uuid.uuid4().hex` is 32 hexadecimal characters, not
the 64-character string the claim states — shown at the concrete random
value 0, whose request id has length 32; the submit response carries exactly
that id. -/
theorem c8_counterexample :
    (create_request_id 0).length = 32
    ∧ (create_request_id 0).length ≠ 64
    ∧ (submit_code (ConnectionManager.mk []) [] "A" (some "cpp")
        "int main()\x7b\x7d" "2024-01-01T00:00:00Z" (create_request_id 0)
        (fun _ => false)).response.request_id = create_request_id 0 :=
  ⟨create_request_id_length 0,
   by rw [create_request_id_length]; decide,
   rfl⟩

/-- C8 amended: a submission made while zero peers are connected answers
`queued` with `sent_to_clients = 0` and a request id that is a 32-character
(not 64) lowercase hexadecimal string, and a result query for that id
issued before any report answers `pending` once its timeout elapses. -/
theorem c8_zero_peer_submit (t : Table) (r : Nat) (pc : String)
    (lang : Option String) (fileCode timestamp : String)
    (fails : Peer → Bool) :
    (submit_code (ConnectionManager.mk []) t pc lang fileCode timestamp
        (create_request_id r) fails).response
      = SubmitResponse.mk "queued" 0 (create_request_id r)
    ∧ (create_request_id r).length = 32
    ∧ (∀ c ∈ (create_request_id r).toList, isHexChar c = true)
    ∧ (submission_result
        (submit_code (ConnectionManager.mk []) t pc lang fileCode timestamp
            (create_request_id r) fails).table
        (create_request_id r) none).1 = QueryOutcome.pending := by
  refine ⟨rfl, create_request_id_length r, ?_, ?_⟩
  · intro c hc
    exact toHexChars_isHex 32 (uuid4_int r) c hc
  · have hg : dictGet (submit_code (ConnectionManager.mk []) t pc lang
        fileCode timestamp (create_request_id r) fails).table
        (create_request_id r) = some FutState.unresolved :=
      dictGet_dictInsert_self t (create_request_id r) FutState.unresolved
    simp [submission_result, hg]

/-- Witness for C8's amended claim at the concrete random value 5 and a
concrete submission. -/
theorem c8_witness :
    (create_request_id 5).length = 32
    ∧ (submit_code (ConnectionManager.mk []) [] "A" (some "cpp")
        "int main()\x7b\x7d" "2024-01-01T00:00:00Z" (create_request_id 5)
        (fun q => q == 0)).response
      = SubmitResponse.mk "queued" 0 (create_request_id 5) :=
  ⟨(c8_zero_peer_submit [] 5 "A" (some "cpp") "int main()\x7b\x7d"
      "2024-01-01T00:00:00Z" (fun q => q == 0)).2.1,
   (c8_zero_peer_submit [] 5 "A" (some "cpp") "int main()\x7b\x7d"
      "2024-01-01T00:00:00Z" (fun q => q == 0)).1⟩

/-- C9: the score endpoint maps a status code through `RESULT_NAME_MAP` to
its display label when the code is a key of the table, passes any unmapped
code through unchanged, and answers `ok` whatever the notify mechanism does
(its failure is swallowed, recorded only as the logged error). -/
theorem c9_score_mapping (sid status : String) (plyerAvailable : Bool)
    (notifyError : Option String) :
    (submission_score sid status plyerAvailable notifyError).response
      = ScoreResponse.mk "ok"
    ∧ (∀ v, mapGet status = some v →
        (submission_score sid status plyerAvailable notifyError).label = v)
    ∧ (mapGet status = none →
        (submission_score sid status plyerAvailable notifyError).label
          = status) := by
  refine ⟨rfl, ?_, ?_⟩
  · intro v h
    simp [submission_score, h]
  · intro h
    simp [submission_score, h]

/-- Witness for C9: the mapped code "TL" displays as "timelimit", the
unmapped code "XX" passes through, and the response is `ok` even though the
notify call raised. -/
theorem c9_witness :
    mapGet "TL" = some "timelimit"
    ∧ (submission_score "9" "TL" true (some "boom")).label = "timelimit"
    ∧ (submission_score "9" "XX" true (some "boom")).label = "XX"
    ∧ (submission_score "9" "TL" true (some "boom")).response
      = ScoreResponse.mk "ok" :=
  ⟨by decide,
   (c9_score_mapping "9" "TL" true (some "boom")).2.1 "timelimit" (by decide),
   (c9_score_mapping "9" "XX" true (some "boom")).2.2 (by decide),
   (c9_score_mapping "9" "TL" true (some "boom")).1⟩

end QOJ
